import Mathlib

/-!
A shallow embedding of `main.py` from kaizumaki/opendata-pdf-to-csv.

The program converts per-prefecture PDF tables of medical facilities into
CSV records enriched with region / municipality / latitude / longitude.
Pandas dataframes are modelled as a header (list of column names) plus a
list of rows, each row a list of cells; a cell is NaN, a string, or a
number.  External collaborators (PDF table extraction, the postal-code
reference table, the HTTP geocoding service) are passed in as explicit
inputs.
-/

/-- A single pandas cell: missing (NaN/None), a Python string, or a number
(latitude/longitude values produced by geocoding). -/
inductive Cell where
  | na : Cell
  | str (s : String) : Cell
  | num (q : Rat) : Cell
deriving DecidableEq, Repr

deriving instance DecidableEq for Except

/-- One extracted PDF table: rows of optional text cells, as returned by
`page.extract_table()`. -/
abbrev Grid := List (List (Option String))

/-- A pandas DataFrame: column names plus rows (each row positionally
aligned with `cols`). After `pd.concat(..., ignore_index=True)` the index
is positional, so rows are simply a list. -/
structure DF where
  cols : List String
  rows : List (List Cell)
deriving DecidableEq, Repr

/-- Index of the first column with the given name (`df["name"]` lookup). -/
def colIdx (name : String) : List String → Option Nat
  | [] => none
  | c :: cs => if c = name then some 0 else (colIdx name cs).map (· + 1)

/-- Column access: `df[name]` as a list of cells; `none` models a `KeyError`.  A row
shorter than the header yields NaN for the missing position (rows built by
`mkDF` are always rectangular). -/
def DF.getCol (df : DF) (name : String) : Option (List Cell) :=
  (colIdx name df.cols).map fun j => df.rows.map fun r => r.getD j Cell.na

/-- Column assignment `df[name] = vals`: overwrite an existing column in place, or append a
new column at the right edge (pandas column assignment). -/
def DF.setCol (df : DF) (name : String) (vals : List Cell) : DF :=
  match colIdx name df.cols with
  | some j => ⟨df.cols, List.zipWith (fun r v => r.set j v) df.rows vals⟩
  | none => ⟨df.cols ++ [name], List.zipWith (fun r v => r ++ [v]) df.rows vals⟩

/-- Cell access `df[name][i]` (column lookup then positional row access). -/
def getCell (df : DF) (name : String) (i : Nat) : Option Cell :=
  (df.getCol name).bind fun col => col[i]?

/-- A grid cell as a pandas cell: `None` becomes NaN. -/
def cellOfOpt : Option String → Cell
  | none => Cell.na
  | some s => Cell.str s

/-- Frame construction `pd.DataFrame(data, columns=headers)`: ragged rows are padded with NaN
to the widest row; a width different from the header count raises
`ValueError`. -/
def mkDF (headers : List String) (data : List (List (Option String))) : Except String DF :=
  if data.isEmpty then .ok ⟨headers, []⟩
  else
    let w := (data.map List.length).foldr max 0
    if w = headers.length then
      .ok ⟨headers, data.map fun r => r.map cellOfOpt ++ List.replicate (w - r.length) Cell.na⟩
    else .error "ValueError: columns passed, passed data had different columns"

/-! ### String helpers

`re.sub` with a single-character literal pattern deletes or substitutes
every occurrence of that character, which is `delChar` / `subChar` below.
`str.contains` on the Japanese prefecture names used by the program has no
regex metacharacters, so it is substring containment. -/

/-- Delete every occurrence of a character (`re.sub(c, '', s)`). -/
def delChar (c : Char) : List Char → List Char
  | [] => []
  | x :: l => if x = c then delChar c l else x :: delChar c l

/-- Substitute every occurrence of a character (`re.sub(c, r, s)`). -/
def subChar (c r : Char) : List Char → List Char
  | [] => []
  | x :: l => (if x = c then r else x) :: subChar c r l

/-- Python `s.replace(c, '')` on a string. -/
def strDel (c : Char) (s : String) : String := ⟨delChar c s.data⟩

/-- Whether `pat` occurs as a contiguous run inside `l`. -/
def listIsInfixOf (pat : List Char) : List Char → Bool
  | [] => pat.isEmpty
  | x :: l => pat.isPrefixOf (x :: l) || listIsInfixOf pat l

/-- Substring containment (`pattern in s` / `Series.str.contains` for a
pattern without regex metacharacters). -/
def strContains (s pat : String) : Bool := listIsInfixOf pat.data s.data

/-- Python `s.startswith(pat)`. -/
def strStartsWith (s pat : String) : Bool := pat.data.isPrefixOf s.data

/-! ### Row Cleaner: `clear_change_line` -/

/-- Pandas `pd.notna` on a cell. -/
def notna : Cell → Bool
  | Cell.na => false
  | _ => true

/-- The per-cell effect of the in-place replaces of `clear_change_line`:
remove `"` (line 131), then `~` and `〜` become `-` (lines 134-135).
The newline replaces on lines 129-130 are chained without `inplace=True`
and their result is discarded, so they have no effect on the frame and do
not appear here.  Non-string cells are untouched by `DataFrame.replace`. -/
def cleanCell : Cell → Cell
  | Cell.str s => Cell.str ⟨subChar '〜' '-' (subChar '~' '-' (delChar '"' s.data))⟩
  | c => c

/-- The function `clear_change_line(df)` (lines 124-140): in-place quote removal, tilde
substitution, then `dropna(axis=0, thresh=2)`, which keeps the rows having
at least two non-NaN cells and drops nothing column-wise. -/
def clear_change_line (df : DF) : DF :=
  ⟨df.cols,
   (df.rows.map (List.map cleanCell)).filter fun r => decide (2 ≤ r.countP notna)⟩

/-! ### `split_japanese_address` (lines 59-80)

The pattern is
`(?:(?P<region>...??[都道府県]))?(?P<locality>.+?[市区町村湾島])(?P<remainder>.*)`
matched with `pattern.match` (anchored at the start).  The optional group
is tried first (regex `?` is greedy), inside it the lazy `.??` first tries
a 3-character region and then a 4-character one, and the `.+?` of the
locality expands lazily, so the locality ends at the first suffix
character.  `.` does not match a newline.  `(?P<remainder>.*)` always
matches and is discarded. -/

/-- Prefecture-class suffix characters `[都道府県]`. -/
def prefSuffix (c : Char) : Bool := c == '都' || c == '道' || c == '府' || c == '県'

/-- Municipality-class suffix characters `[市区町村湾島]`. -/
def localitySuffix (c : Char) : Bool :=
  c == '市' || c == '区' || c == '町' || c == '村' || c == '湾' || c == '島'

/-- Lazy expansion of `.+?[市区町村湾島]` after its first character:
at each step first try to close the group with a suffix character, else
extend the `.+?` span by one non-newline character. -/
def matchLocalityGo (acc : List Char) : List Char → Option (List Char)
  | [] => none
  | d :: rest =>
    if localitySuffix d then some (acc ++ [d])
    else if d = '\n' then none
    else matchLocalityGo (acc ++ [d]) rest

/-- Match `(?P<locality>.+?[市区町村湾島])` at the head of `cs`, returning
the matched locality text. -/
def matchLocality (cs : List Char) : Option (List Char) :=
  match cs with
  | [] => none
  | c :: rest => if c = '\n' then none else matchLocalityGo [c] rest

/-- The function `split_japanese_address(address)`: returns `[region, locality]`, both
empty when the pattern does not match (or the address is falsy). -/
def split_japanese_address (address : String) : List String :=
  if address = "" then ["", ""]
  else
    let cs := address.data
    let try3 : Option (String × String) :=
      match cs with
      | a :: b :: c :: rest =>
        if (a != '\n') && (b != '\n') && prefSuffix c then
          (matchLocality rest).map fun loc => (⟨[a, b, c]⟩, ⟨loc⟩)
        else none
      | _ => none
    let try4 : Option (String × String) :=
      match cs with
      | a :: b :: c :: d :: rest =>
        if (a != '\n') && (b != '\n') && (c != '\n') && prefSuffix d then
          (matchLocality rest).map fun loc => (⟨[a, b, c, d]⟩, ⟨loc⟩)
        else none
      | _ => none
    let try0 : Option (String × String) :=
      (matchLocality cs).map fun loc => ("", ⟨loc⟩)
    match try3 <|> try4 <|> try0 with
    | some (r, loc) => [r, loc]
    | none => ["", ""]

/-! ### Geocoding: `address_to_coordinates` (lines 36-56)

The HTTP layer is a collaborator: one `GeoResponse` per queried address.
`ET.fromstring` success is `xmlOk`; the two `findtext` results are
modelled directly as the numeric values of the text nodes when the nodes
exist (`none` when a node is missing, in which case `float(None)` raises
`TypeError`).  Python `round(x, 6)` is round-half-to-even at six
fractional digits. -/

/-- The geocoding service's reply for one address. -/
structure GeoResponse where
  statusCode : Nat
  xmlOk : Bool
  candidateLongitude : Option Rat
  candidateLatitude : Option Rat
deriving DecidableEq, Repr

/-- Round `n / d` (with `d` positive) half to even, on integers. -/
def roundHalfEven (n : Int) (d : Nat) : Int :=
  let f : Int := n.fdiv d
  let r : Int := n.fmod d
  if 2 * r < (d : Int) then f
  else if (d : Int) < 2 * r then f + 1
  else if f % 2 = 0 then f else f + 1

/-- Python `round(q, 6)`: round half to even at the sixth fractional digit
(`q * 10^6` is `(q.num * 10^6) / q.den`). -/
def round6 (q : Rat) : Rat :=
  mkRat (roundHalfEven (q.num * 1000000) q.den) 1000000

/-- The function `address_to_coordinates(address)` given the service reply for that
address.  Returns `(latitude, longitude)`; an uncaught Python exception is
`.error`. -/
def address_to_coordinates (address : String) (resp : GeoResponse) :
    Except String (Rat × Rat) :=
  if address = "" then .ok (0, 0)
  else if resp.statusCode = 200 then
    if resp.xmlOk then
      match resp.candidateLongitude, resp.candidateLatitude with
      | some lon, some lat => .ok (round6 lat, round6 lon)
      | _, _ => .error "TypeError: float() argument must be a string or a number, not NoneType"
    else .error "ParseError: syntax error"
  else .ok (0, 0)

/-! ### Postal lookup: `postal2location` (lines 83-95) -/

/-- The function `postal2location(postal_code)` for a non-NaN string code: strip
hyphens, then look up `postal_to_location` (passed in as a map); a miss
yields `("", "")`. -/
def postal2location (postal : String → Option (String × String))
    (postal_code : String) : String × String :=
  let code := strDel '-' postal_code
  match postal code with
  | some v => v
  | none => ("", "")

/-- The per-cell lambda of line 199 combined with `postal2location`'s own
NaN guard: NaN yields `("", "")`; a numeric cell would hit
`postal_code.replace` on a float and raise. -/
def postal2locationCell (postal : String → Option (String × String)) :
    Cell → Except String (String × String)
  | Cell.na => .ok ("", "")
  | Cell.str s => .ok (postal2location postal s)
  | Cell.num _ => .error "AttributeError: float object has no attribute replace"

/-! ### Page assembly (lines 98-162) -/

/-- The stray title row deleted for Oita (line 102). -/
def oitaTitle : String := "緊急避妊に係る診療が可能な産婦人科医療機関等一覧"

/-- Pandas `df.iloc[0, 0]`; raises `IndexError` on an empty frame. -/
def iloc00 (df : DF) : Except String Cell :=
  match df.rows with
  | [] => .error "IndexError: single positional indexer is out-of-bounds"
  | r :: _ =>
    match r with
    | [] => .error "IndexError: single positional indexer is out-of-bounds"
    | c :: _ => .ok c

/-- Pandas `df.iloc[0, 1]`. -/
def iloc01 (df : DF) : Except String Cell :=
  match df.rows with
  | [] => .error "IndexError: single positional indexer is out-of-bounds"
  | r :: _ =>
    match r[1]? with
    | none => .error "IndexError: single positional indexer is out-of-bounds"
    | some c => .ok c

/-- Drop the first `n` rows (`df.drop(df.index[:n])`; page frames have
unique index labels). -/
def dropRows (df : DF) (n : Nat) : DF := ⟨df.cols, df.rows.drop n⟩

/-- The function `delete_title(df)` (lines 98-105): drop a leading Oita title row,
otherwise apply the in-place effects of `clear_change_line`. -/
def delete_title (df : DF) : Except String DF := do
  let c ← iloc00 df
  if c = Cell.str oitaTitle then pure (dropRows df 1)
  else pure (clear_change_line df)

/-- The function `delete_headers(df, line_number)` (lines 108-116): for each target in
`["基本情報", "施設名"]`, if the first cell (or, when there is more than
one column, the second cell) of the first row equals the target, drop the
first `line_number` rows. -/
def delete_headers (df : DF) (line_number : Nat) : Except String DF := do
  let c0 ← iloc00 df
  if c0 = Cell.str "基本情報" then pure (dropRows df line_number)
  else do
    let m1 ← if 1 < df.cols.length then (iloc01 df).map (fun c => decide (c = Cell.str "基本情報"))
             else pure false
    if m1 then pure (dropRows df line_number)
    else if c0 = Cell.str "施設名" then pure (dropRows df line_number)
    else do
      let m2 ← if 1 < df.cols.length then (iloc01 df).map (fun c => decide (c = Cell.str "施設名"))
               else pure false
      if m2 then pure (dropRows df line_number) else pure df

/-- The function `fix_format_page_df(df, line_number)` (lines 119-121). -/
def fix_format_page_df (df : DF) (line_number : Nat) : Except String DF := do
  let df := clear_change_line df
  let df ← delete_title df
  delete_headers df line_number

/-- Header cell normalization of lines 154-155:
`header.replace('\n', '').replace('\r', '') if header else ''`. -/
def stripHeaderCell : Option String → String
  | none => ""
  | some s => if s = "" then "" else strDel '\r' (strDel '\n' s)

/-- The tail of `get_first_page` once the header row index is fixed:
strip the header cells, force the first header to 公表の希望の有無 for
Okinawa (an `IndexError` on an empty header row), and take everything
after the header row as data. -/
def get_first_page_finish (first_table : Grid) (prefecture_name : String)
    (row : Nat) (hrow : List (Option String)) :
    Except String (List String × Grid) := do
  let headers := hrow.map stripHeaderCell
  let headers ←
    if prefecture_name = "沖縄県" then
      match headers with
      | [] => .error "IndexError: list assignment index out of range"
      | _ :: _ => pure (headers.set 0 "公表の希望の有無")
    else pure headers
  pure (headers, first_table.drop (row + 1))

/-- The function `get_first_page(first_table, prefecture_name)` (lines 143-162): the
header row is grid row 1, advanced to row 2 when its first cell reads
基本情報. -/
def get_first_page (first_table : Grid) (prefecture_name : String) :
    Except String (List String × Grid) := do
  let hrow ←
    match first_table[1]? with
    | none => .error "IndexError: list index out of range"
    | some r => pure r
  let h0 ←
    match hrow[0]? with
    | none => .error "IndexError: list index out of range"
    | some c => pure c
  if h0 = some "基本情報" then
    match first_table[2]? with
    | none => .error "IndexError: list index out of range"
    | some hrow2 => get_first_page_finish first_table prefecture_name 2 hrow2
  else get_first_page_finish first_table prefecture_name 1 hrow

/-! ### Address Resolver (lines 196-220) and driver (lines 165-228) -/

/-- Pandas `Series.apply` with Python's eager left-to-right evaluation: the first
raised exception aborts the whole statement. -/
def mapE (f : α → Except String β) : List α → Except String (List β)
  | [] => .ok []
  | a :: l =>
    match f a with
    | .error e => .error e
    | .ok b =>
      match mapE f l with
      | .error e => .error e
      | .ok bs => .ok (b :: bs)

/-- Step 1 (lines 196-199): derive 都道府県 / 市町村 from 郵便番号.
`zip(*...)` on an empty frame raises `ValueError` (nothing to unpack). -/
def step1 (postal : String → Option (String × String)) (df : DF) :
    Except String DF := do
  let col ←
    match df.getCol "郵便番号" with
    | none => .error "KeyError: '郵便番号'"
    | some c => pure c
  if df.rows.isEmpty then .error "ValueError: not enough values to unpack"
  else do
    let pairs ← mapE (postal2locationCell postal) col
    let df := df.setCol "都道府県" (pairs.map fun p => Cell.str p.1)
    pure (df.setCol "市町村" (pairs.map fun p => Cell.str p.2))

/-- The per-cell effect of step 2 (lines 201-207): a string address that
does not contain the prefecture name gets it prepended; NaN or numeric
cells never satisfy `str.contains(...) == False` and stay unchanged. -/
def step2Cell (prefecture_name : String) : Cell → Cell
  | Cell.str s =>
    if strContains s prefecture_name then Cell.str s
    else Cell.str (prefecture_name ++ s)
  | c => c

/-- Step 2 (lines 201-207): repair addresses missing the prefecture name. -/
def step2 (prefecture_name : String) (df : DF) : Except String DF :=
  match df.getCol "住所" with
  | none => .error "KeyError: '住所'"
  | some col => .ok (df.setCol "住所" (col.map (step2Cell prefecture_name)))

/-- The per-cell lambda of line 211: NaN yields the strings `("0", "0")`;
a string address is geocoded; a numeric cell is formatted with `str` and
geocoded unless it is falsy (`if not address` inside
`address_to_coordinates`). -/
def coordCellsOf (resp : String → GeoResponse) : Cell → Except String (Cell × Cell)
  | Cell.na => .ok (Cell.str "0", Cell.str "0")
  | Cell.str s =>
    (address_to_coordinates s (resp s)).map fun p => (Cell.num p.1, Cell.num p.2)
  | Cell.num q =>
    if q = 0 then .ok (Cell.num 0, Cell.num 0)
    else (address_to_coordinates (toString q) (resp (toString q))).map
      fun p => (Cell.num p.1, Cell.num p.2)

/-- Step 3 (lines 209-211): geocode every address into 緯度 / 経度. -/
def step3 (resp : String → GeoResponse) (df : DF) : Except String DF := do
  let col ←
    match df.getCol "住所" with
    | none => .error "KeyError: '住所'"
    | some c => pure c
  if df.rows.isEmpty then .error "ValueError: not enough values to unpack"
  else do
    let pairs ← mapE (coordCellsOf resp) col
    let df := df.setCol "緯度" (pairs.map Prod.fst)
    pure (df.setCol "経度" (pairs.map Prod.snd))

/-- The expression `split_japanese_address(x)[:2]` applied to one selected cell of the
住所 column.  `bool(nan)` is truthy, so a NaN address reaches
`pattern.match` and raises; a nonzero float does as well, while `0.0` is
falsy and yields the empty pair. -/
def splitCellAddr : Cell → Except String (String × String)
  | Cell.na => .error "TypeError: expected string or bytes-like object"
  | Cell.num q =>
    if q = 0 then .ok ("", "")
    else .error "TypeError: expected string or bytes-like object"
  | Cell.str s =>
    .ok (((split_japanese_address s).getD 0 ""), ((split_japanese_address s).getD 1 ""))

/-- Step 4 (lines 213-220): select the rows whose 都道府県 or 市町村 is
the empty string, parse those rows' addresses, and `df.update` the result.
`DataFrame.update` writes every non-NaN value of the update frame, and the
parse always yields strings, so both columns of every selected row are
overwritten. -/
def step4 (df : DF) : Except String DF := do
  let regionCol ←
    match df.getCol "都道府県" with
    | none => .error "KeyError: '都道府県'"
    | some c => pure c
  let muniCol ←
    match df.getCol "市町村" with
    | none => .error "KeyError: '市町村'"
    | some c => pure c
  let sel := List.zipWith
    (fun r m => decide (r = Cell.str "") || decide (m = Cell.str "")) regionCol muniCol
  if sel.all (fun b => b = false) then pure df
  else do
    let addrCol ←
      match df.getCol "住所" with
      | none => .error "KeyError: '住所'"
      | some c => pure c
    let pairs ← mapE
      (fun sa : Bool × Cell =>
        if sa.1 then (splitCellAddr sa.2).map some else .ok none)
      (sel.zip addrCol)
    let newRegion := List.zipWith
      (fun p (old : Cell) =>
        match p with
        | some v => Cell.str (v : String × String).1
        | none => old)
      pairs regionCol
    let newMuni := List.zipWith
      (fun p (old : Cell) =>
        match p with
        | some v => Cell.str (v : String × String).2
        | none => old)
      pairs muniCol
    pure ((df.setCol "都道府県" newRegion).setCol "市町村" newMuni)

/-- Lines 196-220: the conditional resolver chain run on the assembled
table of one document. -/
def resolveAddresses (postal : String → Option (String × String))
    (resp : String → GeoResponse) (prefecture_name : String) (df : DF) :
    Except String DF := do
  let df1 ← if "郵便番号" ∈ df.cols then step1 postal df else pure df
  if "住所" ∈ df1.cols then do
    let df2 ← step2 prefecture_name df1
    let df3 ← step3 resp df2
    step4 df3
  else pure df1

/-- The page loop of lines 185-194.  Every page frame is built with the
first page's `headers`, so `pd.concat` aligns identical columns and simply
appends rows.  `if table:` is false for `None` and for an empty list. -/
def processPages (headers : List String) (df : DF) :
    List (Option Grid) → Except String DF
  | [] => .ok df
  | t? :: rest =>
    match t? with
    | none => processPages headers df rest
    | some table =>
      if table.isEmpty then processPages headers df rest
      else do
        let page_df ← mkDF headers table
        let page_df ← fix_format_page_df page_df 1
        let page_df := clear_change_line page_df
        processPages headers ⟨df.cols, df.rows ++ page_df.rows⟩ rest

/-- Lines 181-194: build the document's single table from the first page's
grid and the remaining pages. -/
def assembleDoc (prefecture_name : String) (ft : Grid)
    (rest : List (Option Grid)) : Except String DF := do
  let hd ← get_first_page ft prefecture_name
  let df ← mkDF hd.1 hd.2
  let df := clear_change_line df
  processPages hd.1 df rest

/-- One opened PDF: the `extract_table()` result of each page in order. -/
structure PdfDoc where
  pages : List (Option Grid)
deriving DecidableEq, Repr

/-- What one iteration of the prefecture loop does: an uncaught exception
is printed and the loop continues (`error`), a first page without a usable
table prints "No table found." and the document is skipped (`noTable`),
otherwise the enriched table is written to the prefecture's CSV
(`wrote`). -/
inductive Outcome where
  | error (msg : String) : Outcome
  | noTable : Outcome
  | wrote (df : DF) : Outcome
deriving DecidableEq, Repr

/-- Whether the iteration wrote an output CSV. -/
def writesFile : Outcome → Bool
  | Outcome.wrote _ => true
  | _ => false

/-- One iteration of the loop in `main` (lines 166-228) for one
prefecture.  `doc?` is `none` when the data directory is missing or empty
(`os.listdir` raises, or `opendata_files[0]` does); an empty PDF makes
`pdf.pages[0]` raise. -/
def processDocument (postal : String → Option (String × String))
    (resp : String → GeoResponse) (prefecture_name : String)
    (doc? : Option PdfDoc) : Outcome :=
  match doc? with
  | none => Outcome.error "FileNotFoundError"
  | some doc =>
    match doc.pages with
    | [] => Outcome.error "IndexError: list index out of range"
    | ft? :: rest =>
      match ft? with
      | none => Outcome.noTable
      | some ft =>
        if ft.length < 2 then Outcome.noTable
        else
          match (do
            let df ← assembleDoc prefecture_name ft rest
            resolveAddresses postal resp prefecture_name df : Except String DF) with
          | .ok df => Outcome.wrote df
          | .error e => Outcome.error e

/-- The whole `main` loop: one outcome per prefecture, in order; no
iteration's failure affects any other iteration. -/
def mainRun (postal : String → Option (String × String))
    (resp : String → GeoResponse)
    (inputs : List (String × Option PdfDoc)) : List Outcome :=
  inputs.map fun p => processDocument postal resp p.1 p.2

/-! ## Claim theorems -/

/-- C2 (code bug evaluation): the Row Cleaner leaves newline and
carriage-return characters in the cells.  The quote is removed (line 131
is in-place), but the chained newline replaces of lines 129-130 never
touch the frame, so the cleaned cell still contains `'\n'` and `'\r'`. -/
theorem C2_newlines_survive_clean :
    clear_change_line ⟨["A", "B"], [[Cell.str "a\"\nb", Cell.str "x\rc"]]⟩ =
      ⟨["A", "B"], [[Cell.str "a\nb", Cell.str "x\rc"]]⟩ ∧
    '\n' ∈ ("a\nb" : String).data ∧ '\r' ∈ ("x\rc" : String).data :=
  ⟨rfl, by decide, by decide⟩

/-- C8 (code bug evaluation): the Row Cleaner keeps a column whose header
name is empty.  `dropna(axis=0, thresh=2)` drops rows only, so the
empty-named column of this table survives `clear_change_line` with its
data intact. -/
theorem C8_empty_header_column_survives :
    clear_change_line ⟨["", "X"], [[Cell.str "a", Cell.str "b"]]⟩ =
      ⟨["", "X"], [[Cell.str "a", Cell.str "b"]]⟩ ∧
    "" ∈ (clear_change_line ⟨["", "X"], [[Cell.str "a", Cell.str "b"]]⟩).cols :=
  ⟨rfl, by decide⟩

/-- C7: the address-split scenario.  `"港区芝公園4-2-8"` parses to an
absent region and the non-greedy municipality `"港区"`; an address with an
explicit prefecture keeps it as the region; an empty or unmatched address
yields two empty fields. -/
theorem C7_split_address_scenario :
    split_japanese_address "港区芝公園4-2-8" = ["", "港区"] ∧
    split_japanese_address "東京都港区芝公園4-2-8" = ["東京都", "港区"] ∧
    split_japanese_address "" = ["", ""] ∧
    split_japanese_address "1234" = ["", ""] :=
  ⟨rfl, rfl, rfl, rfl⟩

/-- C3 (counterexample): a 200 response whose XML lacks the candidate
latitude/longitude nodes does not yield `(0, 0)` — `float(None)` raises a
`TypeError` that escapes `address_to_coordinates`, so the claim that every
response-parse failure yields `(0, 0)` for that record only is false. -/
theorem C3_parse_failure_raises :
    address_to_coordinates "東京都"
        ⟨200, true, none, none⟩ =
      .error "TypeError: float() argument must be a string or a number, not NoneType" ∧
    address_to_coordinates "東京都" ⟨200, true, none, none⟩ ≠ .ok (0, 0) :=
  ⟨rfl, by simp [address_to_coordinates]⟩

/-- C1 (counterexample): a record whose postal lookup supplied a non-empty
都道府県 but an empty 市町村 is selected by the step-4 filter, and
`df.update` then overwrites its 都道府県 with the address parse: after
step 1 the region is `東京都`, after step 4 it is `神奈川県`. -/
theorem C1_step4_overwrites_nonempty_region :
    ((step1 (fun c => if c = "1000001" then some ("東京都", "") else none)
        ⟨["郵便番号", "住所"], [[Cell.str "100-0001", Cell.str "神奈川県横浜市西区1"]]⟩).map
      fun d => getCell d "都道府県" 0) = .ok (some (Cell.str "東京都")) ∧
    Cell.str "東京都" ≠ Cell.str "" ∧
    ((resolveAddresses (fun c => if c = "1000001" then some ("東京都", "") else none)
        (fun _ => ⟨200, true, some 0, some 0⟩) "神奈川県"
        ⟨["郵便番号", "住所"], [[Cell.str "100-0001", Cell.str "神奈川県横浜市西区1"]]⟩).map
      fun d => getCell d "都道府県" 0) = .ok (some (Cell.str "神奈川県")) :=
  ⟨rfl, by decide, rfl⟩

/-- C4: first-page header detection.  For any prefecture other than the
special-cased 沖縄県, row 1 of the grid reads the placeholder 基本情報, so
the header advances to row 2 and becomes `["h1", "h2"]`, the data is
everything after the header row, and the assembled frame holds the single
record `{"h1": "v1", "h2": "v2"}`. -/
theorem C4_first_page_header (pref : String) (hp : pref ≠ "沖縄県") :
    get_first_page
        [[some "title"], [some "基本情報"], [some "h1", some "h2"], [some "v1", some "v2"]]
        pref = .ok (["h1", "h2"], [[some "v1", some "v2"]]) ∧
    mkDF ["h1", "h2"] [[some "v1", some "v2"]] =
      .ok ⟨["h1", "h2"], [[Cell.str "v1", Cell.str "v2"]]⟩ := by
  refine ⟨?_, rfl⟩
  show get_first_page_finish
      [[some "title"], [some "基本情報"], [some "h1", some "h2"], [some "v1", some "v2"]]
      pref 2 [some "h1", some "h2"] = _
  simp [get_first_page_finish, stripHeaderCell, strDel, delChar, hp]
  rfl

/-- Witness for C4 at the concrete prefecture 北海道. -/
theorem C4_first_page_header_witness :
    ("北海道" : String) ≠ "沖縄県" ∧
    (get_first_page
        [[some "title"], [some "基本情報"], [some "h1", some "h2"], [some "v1", some "v2"]]
        "北海道" = .ok (["h1", "h2"], [[some "v1", some "v2"]]) ∧
     mkDF ["h1", "h2"] [[some "v1", some "v2"]] =
       .ok ⟨["h1", "h2"], [[Cell.str "v1", Cell.str "v2"]]⟩) :=
  ⟨by decide, C4_first_page_header "北海道" (by decide)⟩

/-! Auxiliary facts about the cell scrubbing, used for idempotence. -/

theorem mem_delChar {x c : Char} {l : List Char} (h : x ∈ delChar c l) :
    x ∈ l ∧ x ≠ c := by
  induction l with
  | nil => simp [delChar] at h
  | cons y l ih =>
    by_cases hy : y = c
    · simp only [delChar, if_pos hy] at h
      exact ⟨List.mem_cons_of_mem _ (ih h).1, (ih h).2⟩
    · simp only [delChar, if_neg hy, List.mem_cons] at h
      rcases h with h | h
      · exact ⟨by simp [h], h ▸ hy⟩
      · exact ⟨List.mem_cons_of_mem _ (ih h).1, (ih h).2⟩

theorem mem_subChar {x c r : Char} {l : List Char} (h : x ∈ subChar c r l) :
    x = r ∨ (x ∈ l ∧ x ≠ c) := by
  induction l with
  | nil => simp [subChar] at h
  | cons y l ih =>
    simp only [subChar, List.mem_cons] at h
    rcases h with h | h
    · by_cases hy : y = c
      · rw [if_pos hy] at h
        exact Or.inl h
      · rw [if_neg hy] at h
        exact Or.inr ⟨by simp [h], h ▸ hy⟩
    · rcases ih h with h | ⟨h1, h2⟩
      · exact Or.inl h
      · exact Or.inr ⟨List.mem_cons_of_mem _ h1, h2⟩

theorem delChar_eq_self {c : Char} {l : List Char} (h : ∀ x ∈ l, x ≠ c) :
    delChar c l = l := by
  induction l with
  | nil => rfl
  | cons y l ih =>
    rw [delChar, if_neg (h y (by simp)), ih fun x hx => h x (List.mem_cons_of_mem _ hx)]

theorem subChar_eq_self {c r : Char} {l : List Char} (h : ∀ x ∈ l, x ≠ c) :
    subChar c r l = l := by
  induction l with
  | nil => rfl
  | cons y l ih =>
    rw [subChar, if_neg (h y (by simp)), ih fun x hx => h x (List.mem_cons_of_mem _ hx)]

/-- The composite scrub of `clear_change_line` is idempotent on character
lists: its output contains no `"`, `~` or `〜`, so a second pass changes
nothing. -/
theorem scrub_idem (l : List Char) :
    subChar '〜' '-' (subChar '~' '-' (delChar '"'
      (subChar '〜' '-' (subChar '~' '-' (delChar '"' l))))) =
    subChar '〜' '-' (subChar '~' '-' (delChar '"' l)) := by
  set m := subChar '〜' '-' (subChar '~' '-' (delChar '"' l)) with hm
  have h1 : ∀ x ∈ m, x ≠ '"' := by
    intro x hx
    rcases mem_subChar hx with h | ⟨hx2, -⟩
    · subst h; decide
    · rcases mem_subChar hx2 with h | ⟨hx3, -⟩
      · subst h; decide
      · exact (mem_delChar hx3).2
  have h2 : ∀ x ∈ m, x ≠ '~' := by
    intro x hx
    rcases mem_subChar hx with h | ⟨hx2, -⟩
    · subst h; decide
    · rcases mem_subChar hx2 with h | ⟨-, hne⟩
      · subst h; decide
      · exact hne
  have h3 : ∀ x ∈ m, x ≠ '〜' := by
    intro x hx
    rcases mem_subChar hx with h | ⟨-, hne⟩
    · subst h; decide
    · exact hne
  rw [delChar_eq_self h1, subChar_eq_self h2, subChar_eq_self h3]

theorem cleanCell_idem (c : Cell) : cleanCell (cleanCell c) = cleanCell c := by
  cases c with
  | na => rfl
  | num q => rfl
  | str s => exact congrArg (fun l => Cell.str ⟨l⟩) (scrub_idem s.data)

theorem rowClean_idem (r : List Cell) :
    (r.map cleanCell).map cleanCell = r.map cleanCell := by
  rw [List.map_map]
  exact List.map_congr_left fun a _ => cleanCell_idem a

/-- C5: the Row Cleaner is idempotent.  Re-applying `clear_change_line`
to an already-cleaned table returns the same table: the character scrub
fixes its own output and the row filter keeps every row it already
kept. -/
theorem C5_row_cleaner_idempotent (df : DF) :
    clear_change_line (clear_change_line df) = clear_change_line df := by
  cases df with
  | mk cols rows =>
    unfold clear_change_line
    congr 1
    have hfix : ∀ r ∈ (rows.map (List.map cleanCell)).filter
        (fun r => decide (2 ≤ r.countP notna)),
        List.map cleanCell r = id r := by
      intro r hr
      obtain ⟨hrl, -⟩ := List.mem_filter.mp hr
      obtain ⟨r0, -, rfl⟩ := List.mem_map.mp hrl
      exact rowClean_idem r0
    rw [List.map_congr_left hfix, List.map_id, List.filter_filter]
    simp only [Bool.and_self]

/-! Auxiliary facts about column access and assignment. -/

theorem colIdx_lt_length {name : String} {cols : List String} {j : Nat}
    (h : colIdx name cols = some j) : j < cols.length := by
  induction cols generalizing j with
  | nil => simp [colIdx] at h
  | cons c cs ih =>
    by_cases hc : c = name
    · simp only [colIdx, if_pos hc, Option.some.injEq] at h
      simp only [List.length_cons]
      omega
    · simp only [colIdx, if_neg hc, Option.map_eq_some'] at h
      obtain ⟨k, hk, rfl⟩ := h
      have := ih hk
      simp only [List.length_cons]
      omega

theorem set_getD_self {α : Type} (l : List α) (j : Nat) (d : α) :
    l.set j (l.getD j d) = l := by
  induction l generalizing j with
  | nil => rfl
  | cons x l ih =>
    cases j with
    | zero => rfl
    | succ n =>
      show x :: l.set n (l.getD n d) = x :: l
      rw [ih]

theorem zipWith_set_getD {j : Nat} (rows : List (List Cell)) (vals : List Cell)
    (hlt : ∀ r ∈ rows, j < r.length) (hlen : vals.length = rows.length) :
    (List.zipWith (fun r v => r.set j v) rows vals).map (fun r => r.getD j Cell.na) =
      vals := by
  induction rows generalizing vals with
  | nil =>
    cases vals with
    | nil => rfl
    | cons v vs => simp at hlen
  | cons r rows ih =>
    cases vals with
    | nil => simp at hlen
    | cons v vs =>
      simp only [List.zipWith_cons_cons, List.map_cons, List.cons.injEq]
      refine ⟨?_, ih vs (fun r hr => hlt r (List.mem_cons_of_mem _ hr)) (by simpa using hlen)⟩
      rw [List.getD_eq_getElem?_getD,
        List.getElem?_set_eq_of_lt _ (hlt r (by simp))]
      rfl

theorem getCol_setCol_self {df : DF} {name : String} {j : Nat} (vals : List Cell)
    (hj : colIdx name df.cols = some j)
    (hrect : ∀ r ∈ df.rows, r.length = df.cols.length)
    (hlen : vals.length = df.rows.length) :
    (df.setCol name vals).getCol name = some vals := by
  unfold DF.setCol
  rw [hj]
  unfold DF.getCol
  simp only [hj, Option.map_some']
  rw [zipWith_set_getD df.rows vals
    (fun r hr => (hrect r hr) ▸ colIdx_lt_length hj) hlen]

theorem getCol_length {df : DF} {name : String} {col : List Cell}
    (h : df.getCol name = some col) : col.length = df.rows.length := by
  unfold DF.getCol at h
  obtain ⟨j, -, rfl⟩ := Option.map_eq_some'.mp h
  exact List.length_map _ _

/-- C6: step 2 of the Address Resolver.  For every record whose 住所 cell
is a string not containing the document's prefecture display name, the
repaired cell is the name prepended to the original text (so it starts
with the name); records whose address already contains the name are left
unchanged. -/
theorem C6_prefecture_prefixed (p : String) (df df2 : DF) (i : Nat) (s : String)
    (hrect : ∀ r ∈ df.rows, r.length = df.cols.length)
    (hs : getCell df "住所" i = some (Cell.str s))
    (h2 : step2 p df = .ok df2) :
    getCell df2 "住所" i = some (step2Cell p (Cell.str s)) ∧
    (strContains s p = false →
      step2Cell p (Cell.str s) = Cell.str (p ++ s) ∧
      strStartsWith (p ++ s) p = true) ∧
    (strContains s p = true → step2Cell p (Cell.str s) = Cell.str s) := by
  unfold getCell at hs
  obtain ⟨col, hcol, hi⟩ : ∃ col, df.getCol "住所" = some col ∧ col[i]? = some (Cell.str s) := by
    cases hc : df.getCol "住所" with
    | none => rw [hc] at hs; simp at hs
    | some col => rw [hc] at hs; exact ⟨col, rfl, hs⟩
  have hj : ∃ j, colIdx "住所" df.cols = some j := by
    unfold DF.getCol at hcol
    obtain ⟨j, hj, -⟩ := Option.map_eq_some'.mp hcol
    exact ⟨j, hj⟩
  obtain ⟨j, hj⟩ := hj
  have hstep : step2 p df = .ok (df.setCol "住所" (col.map (step2Cell p))) := by
    unfold step2
    rw [hcol]
  rw [hstep] at h2
  injection h2 with h2
  subst h2
  refine ⟨?_, ?_, ?_⟩
  · unfold getCell
    rw [getCol_setCol_self (col.map (step2Cell p)) hj hrect
      (by rw [List.length_map]; exact getCol_length hcol)]
    simp only [Option.some_bind, List.getElem?_map, hi, Option.map_some']
  · intro hfalse
    constructor
    · simp [step2Cell, hfalse]
    · unfold strStartsWith
      rw [String.data_append]
      exact List.isPrefixOf_iff_prefix.mpr (List.prefix_append _ _)
  · intro htrue
    simp [step2Cell, htrue]

/-- Witness for C6: a one-record table whose address `港区A` lacks the
prefecture name `東京都` gets it prepended by step 2. -/
theorem C6_prefecture_prefixed_witness :
    step2 "東京都" ⟨["住所"], [[Cell.str "港区A"]]⟩ =
      .ok ⟨["住所"], [[Cell.str "東京都港区A"]]⟩ ∧
    (getCell (⟨["住所"], [[Cell.str "東京都港区A"]]⟩ : DF) "住所" 0 =
        some (step2Cell "東京都" (Cell.str "港区A")) ∧
      (strContains "港区A" "東京都" = false →
        step2Cell "東京都" (Cell.str "港区A") = Cell.str ("東京都" ++ "港区A") ∧
        strStartsWith ("東京都" ++ "港区A") "東京都" = true) ∧
      (strContains "港区A" "東京都" = true →
        step2Cell "東京都" (Cell.str "港区A") = Cell.str "港区A")) :=
  ⟨rfl, C6_prefecture_prefixed "東京都" ⟨["住所"], [[Cell.str "港区A"]]⟩
    ⟨["住所"], [[Cell.str "東京都港区A"]]⟩ 0 "港区A" (by decide) rfl rfl⟩

theorem ok_bind {α β : Type} (a : α) (f : α → Except String β) :
    (Except.ok a : Except String α) >>= f = f a := rfl

theorem error_bind {α β : Type} (e : String) (f : α → Except String β) :
    (Except.error e : Except String α) >>= f = .error e := rfl

theorem mapE_getElem {α β : Type} {f : α → Except String β} {l : List α} {ys : List β}
    (h : mapE f l = .ok ys) {i : Nat} {x : α} (hx : l[i]? = some x) :
    ∃ y, ys[i]? = some y ∧ f x = .ok y := by
  induction l generalizing ys i with
  | nil => simp at hx
  | cons a l ih =>
    cases hfa : f a with
    | error e => simp [mapE, hfa] at h
    | ok b =>
      cases hml : mapE f l with
      | error e => simp [mapE, hfa, hml] at h
      | ok bs =>
        simp only [mapE, hfa, hml] at h
        injection h with h
        subst h
        cases i with
        | zero =>
          simp only [List.getElem?_cons_zero] at hx
          injection hx with hx
          subst hx
          exact ⟨b, by simp, hfa⟩
        | succ n =>
          simp only [List.getElem?_cons_succ] at hx ⊢
          exact ih hml hx

theorem getCol_elim {df : DF} {name : String} {col : List Cell}
    (h : df.getCol name = some col) :
    ∃ j, colIdx name df.cols = some j ∧
      col = df.rows.map fun r => r.getD j Cell.na := by
  unfold DF.getCol at h
  obtain ⟨j, hj, hcol⟩ := Option.map_eq_some'.mp h
  exact ⟨j, hj, hcol.symm⟩


theorem setCol_eq_of_idx {df : DF} {name : String} {j : Nat} (vals : List Cell)
    (hj : colIdx name df.cols = some j) :
    df.setCol name vals =
      ⟨df.cols, List.zipWith (fun r v => r.set j v) df.rows vals⟩ := by
  unfold DF.setCol
  rw [hj]

theorem setCol_eq_of_none {df : DF} {name : String} (vals : List Cell)
    (hn : colIdx name df.cols = none) :
    df.setCol name vals =
      ⟨df.cols ++ [name], List.zipWith (fun r v => r ++ [v]) df.rows vals⟩ := by
  unfold DF.setCol
  rw [hn]

/-- C1 (amended): step 4 leaves untouched every record whose 都道府県 and
市町村 are BOTH non-empty after step 1; the row-selection filter only
excludes such records, so their region (and whole row) survives
`df.update` unchanged.  (A record with a non-empty region but an empty
municipality is selected and has both fields overwritten, as the
counterexample shows.) -/
theorem C1_both_nonempty_row_preserved (df df4 : DF)
    (regionCol muniCol : List Cell) (i : Nat) (r m : Cell)
    (hreg : df.getCol "都道府県" = some regionCol)
    (hmun : df.getCol "市町村" = some muniCol)
    (hri : regionCol[i]? = some r) (hmi : muniCol[i]? = some m)
    (hr : r ≠ Cell.str "") (hm : m ≠ Cell.str "")
    (hstep : step4 df = .ok df4) :
    df4.rows[i]? = df.rows[i]? := by
  obtain ⟨j, hj, hregeq⟩ := getCol_elim hreg
  obtain ⟨k, hk, hmuneq⟩ := getCol_elim hmun
  obtain ⟨row, hrow, hrval⟩ : ∃ row, df.rows[i]? = some row ∧ row.getD j Cell.na = r := by
    rw [hregeq, List.getElem?_map] at hri
    obtain ⟨row, hrow, hval⟩ := Option.map_eq_some'.mp hri
    exact ⟨row, hrow, hval⟩
  have hmval : row.getD k Cell.na = m := by
    rw [hmuneq, List.getElem?_map, hrow] at hmi
    injection hmi
  unfold step4 at hstep
  rw [hreg, hmun] at hstep
  simp only [pure_bind] at hstep
  have hseli : (List.zipWith
      (fun r m => decide (r = Cell.str "") || decide (m = Cell.str ""))
      regionCol muniCol)[i]? = some false := by
    rw [List.getElem?_zipWith, hri, hmi]
    simp [hr, hm]
  split at hstep
  · injection hstep with hstep
    rw [hstep]
  · cases haddr : df.getCol "住所" with
    | none =>
      rw [haddr] at hstep
      simp only [error_bind] at hstep
      cases hstep
    | some addrCol =>
      rw [haddr] at hstep
      simp only [pure_bind] at hstep
      cases hpairs : mapE
          (fun sa : Bool × Cell =>
            if sa.1 then (splitCellAddr sa.2).map some else .ok none)
          ((List.zipWith
            (fun r m => decide (r = Cell.str "") || decide (m = Cell.str ""))
            regionCol muniCol).zip addrCol) with
      | error e => rw [hpairs] at hstep; cases hstep
      | ok pairs =>
        rw [hpairs] at hstep
        simp only [ok_bind] at hstep
        injection hstep with hstep
        obtain ⟨a, hai⟩ : ∃ a, addrCol[i]? = some a := by
          obtain ⟨jA, hjA, haddreq⟩ := getCol_elim haddr
          rw [haddreq, List.getElem?_map, hrow]
          exact ⟨row.getD jA Cell.na, rfl⟩
        have hzipi : ((List.zipWith
            (fun r m => decide (r = Cell.str "") || decide (m = Cell.str ""))
            regionCol muniCol).zip addrCol)[i]? = some (false, a) := by
          rw [List.zip_eq_zipWith, List.getElem?_zipWith, hseli, hai]
        obtain ⟨p, hpi, hpval⟩ := mapE_getElem hpairs hzipi
        have hpnone : p = none := by
          simp only [Bool.false_eq_true, if_false] at hpval
          injection hpval with hpval
          exact hpval.symm
        subst hpnone
        rw [← hstep, setCol_eq_of_idx _ hj]
        unfold DF.setCol
        simp only [hk]
        simp only [List.getElem?_zipWith, hrow, hpi, hri, hmi]
        have hsetj : row.set j r = row := by
          rw [← hrval]
          exact set_getD_self row j Cell.na
        rw [hsetj, ← hmval, set_getD_self]

/-- Witness for the amended C1: a record with both 都道府県 and 市町村
non-empty is not selected and step 4 returns the table unchanged. -/
theorem C1_both_nonempty_row_preserved_witness :
    step4 ⟨["都道府県", "市町村", "住所"],
        [[Cell.str "東京都", Cell.str "千代田区", Cell.str "X"]]⟩ =
      .ok ⟨["都道府県", "市町村", "住所"],
        [[Cell.str "東京都", Cell.str "千代田区", Cell.str "X"]]⟩ ∧
    (⟨["都道府県", "市町村", "住所"],
        [[Cell.str "東京都", Cell.str "千代田区", Cell.str "X"]]⟩ : DF).rows[0]? =
      (⟨["都道府県", "市町村", "住所"],
        [[Cell.str "東京都", Cell.str "千代田区", Cell.str "X"]]⟩ : DF).rows[0]? :=
  ⟨rfl,
   C1_both_nonempty_row_preserved
     ⟨["都道府県", "市町村", "住所"],
       [[Cell.str "東京都", Cell.str "千代田区", Cell.str "X"]]⟩
     ⟨["都道府県", "市町村", "住所"],
       [[Cell.str "東京都", Cell.str "千代田区", Cell.str "X"]]⟩
     [Cell.str "東京都"] [Cell.str "千代田区"] 0
     (Cell.str "東京都") (Cell.str "千代田区")
     rfl rfl rfl rfl (by decide) (by decide) rfl⟩

/-- C3 (amended): a record with no address text, and any record whose
geocode response is not HTTP 200, yields `(0, 0)` non-fatally; but a
response-parse failure — malformed XML or a missing candidate
latitude/longitude node — raises an exception out of the per-record call
(it is caught only by the per-prefecture handler, so it aborts that
document, not just that record). -/
theorem C3_geocode_failure_amended :
    (∀ resp : GeoResponse, address_to_coordinates "" resp = .ok (0, 0)) ∧
    (∀ (a : String) (resp : GeoResponse), resp.statusCode ≠ 200 →
      address_to_coordinates a resp = .ok (0, 0)) ∧
    (∀ (a : String) (resp : GeoResponse), a ≠ "" → resp.statusCode = 200 →
      (resp.xmlOk = false ∨ resp.candidateLongitude = none ∨
        resp.candidateLatitude = none) →
      ∃ e, address_to_coordinates a resp = .error e) := by
  refine ⟨fun resp => rfl, ?_, ?_⟩
  · intro a resp h
    by_cases ha : a = ""
    · subst ha; rfl
    · unfold address_to_coordinates
      rw [if_neg ha, if_neg h]
  · intro a resp ha h200 hbad
    obtain ⟨sc, xo, clon, clat⟩ := resp
    simp only at h200 hbad
    subst h200
    unfold address_to_coordinates
    rw [if_neg ha]
    rcases hbad with hxo | hlon | hlat
    · subst hxo
      exact ⟨_, rfl⟩
    · subst hlon
      cases xo <;> exact ⟨_, rfl⟩
    · subst hlat
      cases xo <;> cases clon <;> exact ⟨_, rfl⟩

/-- Witness for the amended C3 at concrete inputs: empty address, a 404
response, and a 200 response with malformed XML. -/
theorem C3_geocode_failure_amended_witness :
    address_to_coordinates "" ⟨200, true, some 1, some 2⟩ = .ok (0, 0) ∧
    address_to_coordinates "東京都" ⟨404, true, some 1, some 2⟩ = .ok (0, 0) ∧
    ∃ e, address_to_coordinates "東京都" ⟨200, false, some 1, some 2⟩ = .error e :=
  ⟨C3_geocode_failure_amended.1 ⟨200, true, some 1, some 2⟩,
   C3_geocode_failure_amended.2.1 "東京都" ⟨404, true, some 1, some 2⟩ (by decide),
   C3_geocode_failure_amended.2.2 "東京都" ⟨200, false, some 1, some 2⟩
     (by decide) rfl (Or.inl rfl)⟩

/-- C9: a document whose first page yields no table (`None`) or a table
with fewer than 2 rows makes its iteration report "No table found."
(`Outcome.noTable`), write no output file, and leave every other
prefecture's processing untouched — the loop continues over the whole
input list. -/
theorem C9_no_table_skips_document (postal : String → Option (String × String))
    (resp : String → GeoResponse) (inputs : List (String × Option PdfDoc))
    (i : Nat) (name : String) (doc : PdfDoc) (ft? : Option Grid)
    (rest : List (Option Grid))
    (hin : inputs[i]? = some (name, some doc))
    (hpages : doc.pages = ft? :: rest)
    (hshort : ((ft?.map List.length).getD 0) < 2) :
    processDocument postal resp name (some doc) = Outcome.noTable ∧
    (mainRun postal resp inputs)[i]? = some Outcome.noTable ∧
    (mainRun postal resp inputs).length = inputs.length ∧
    writesFile Outcome.noTable = false := by
  have hproc : processDocument postal resp name (some doc) = Outcome.noTable := by
    obtain ⟨pages⟩ := doc
    have hp2 : pages = ft? :: rest := hpages
    subst hp2
    cases ft? with
    | none => rfl
    | some g =>
      have hg : g.length < 2 := hshort
      unfold processDocument
      simp only [if_pos hg]
  refine ⟨hproc, ?_, ?_, rfl⟩
  · unfold mainRun
    rw [List.getElem?_map, hin, Option.map_some']
    rw [hproc]
  · exact List.length_map _ _

/-- Witness for C9: a one-page document whose only grid has a single row. -/
theorem C9_no_table_skips_document_witness :
    processDocument (fun _ => none) (fun _ => ⟨200, true, some 0, some 0⟩)
      "北海道" (some ⟨[some [[some "only"]]]⟩) = Outcome.noTable ∧
    (mainRun (fun _ => none) (fun _ => ⟨200, true, some 0, some 0⟩)
      [("北海道", some ⟨[some [[some "only"]]]⟩)])[0]? = some Outcome.noTable ∧
    (mainRun (fun _ => none) (fun _ => ⟨200, true, some 0, some 0⟩)
      [("北海道", some ⟨[some [[some "only"]]]⟩)]).length =
      [("北海道", some (⟨[some [[some "only"]]]⟩ : PdfDoc))].length ∧
    writesFile Outcome.noTable = false :=
  C9_no_table_skips_document (fun _ => none) (fun _ => ⟨200, true, some 0, some 0⟩)
    [("北海道", some ⟨[some [[some "only"]]]⟩)] 0 "北海道"
    ⟨[some [[some "only"]]]⟩ (some [[some "only"]]) []
    rfl rfl (by decide)

theorem colIdx_of_mem {name : String} {cols : List String} (h : name ∈ cols) :
    ∃ j, colIdx name cols = some j := by
  induction cols with
  | nil => simp at h
  | cons c cs ih =>
    by_cases hc : c = name
    · exact ⟨0, by simp [colIdx, hc]⟩
    · have hm : name ∈ cs := by
        rcases List.mem_cons.mp h with h | h
        · exact absurd h.symm hc
        · exact h
      obtain ⟨j, hj⟩ := ih hm
      exact ⟨j + 1, by simp [colIdx, hc, hj]⟩

theorem colIdx_none_of_not_mem {name : String} {cols : List String}
    (h : name ∉ cols) : colIdx name cols = none := by
  induction cols with
  | nil => rfl
  | cons c cs ih =>
    have hc : c ≠ name := fun hc => h (hc ▸ List.mem_cons_self c cs)
    have hcs : name ∉ cs := fun hm => h (List.mem_cons_of_mem _ hm)
    simp [colIdx, hc, ih hcs]

theorem getCol_none_of_not_mem {df : DF} {name : String} (h : name ∉ df.cols) :
    df.getCol name = none := by
  unfold DF.getCol
  rw [colIdx_none_of_not_mem h]
  rfl

theorem mem_setCol_cols {df : DF} {name x : String} {vals : List Cell}
    (h : x ∈ (df.setCol name vals).cols) : x ∈ df.cols ∨ x = name := by
  unfold DF.setCol at h
  cases hidx : colIdx name df.cols with
  | some j =>
    simp only [hidx] at h
    exact Or.inl h
  | none =>
    simp only [hidx] at h
    rcases List.mem_append.mp h with h | h
    · exact Or.inl h
    · simp only [List.mem_singleton] at h
      exact Or.inr h

theorem setCol_cols_of_idx {df : DF} {name : String} {j : Nat} (vals : List Cell)
    (hj : colIdx name df.cols = some j) : (df.setCol name vals).cols = df.cols := by
  rw [setCol_eq_of_idx vals hj]

/-- C10: a document whose assembled table has an address column (住所) but
no postal-code column (郵便番号) — and hence no step-1-created 都道府県
column — makes step 4's row-selection filter raise
`KeyError: '都道府県'` once steps 2 and 3 have succeeded; the exception is
caught by the per-prefecture handler (an `Outcome.error`), no CSV is
written for that prefecture, and the loop still processes every other
prefecture.  Address-only documents are therefore never resolved. -/
theorem C10_address_only_document_keyerror
    (postal : String → Option (String × String)) (resp : String → GeoResponse)
    (inputs : List (String × Option PdfDoc)) (i : Nat) (name : String)
    (doc : PdfDoc) (ft : Grid) (rest : List (Option Grid)) (df df3 : DF)
    (hin : inputs[i]? = some (name, some doc))
    (hpages : doc.pages = some ft :: rest)
    (hlen : ¬ ft.length < 2)
    (hasm : assembleDoc name ft rest = .ok df)
    (haddr : "住所" ∈ df.cols)
    (hpost : "郵便番号" ∉ df.cols)
    (hreg : "都道府県" ∉ df.cols)
    (h3 : ((step2 name df).bind (step3 resp) : Except String DF) = .ok df3) :
    processDocument postal resp name (some doc) =
      Outcome.error "KeyError: '都道府県'" ∧
    (mainRun postal resp inputs)[i]? =
      some (Outcome.error "KeyError: '都道府県'") ∧
    (mainRun postal resp inputs).length = inputs.length ∧
    writesFile (Outcome.error "KeyError: '都道府県'") = false := by
  obtain ⟨jA, hjA⟩ := colIdx_of_mem haddr
  have hgA : df.getCol "住所" =
      some (df.rows.map fun r => r.getD jA Cell.na) := by
    unfold DF.getCol
    rw [hjA]
    rfl
  have hs2 : step2 name df =
      .ok (df.setCol "住所"
        ((df.rows.map fun r => r.getD jA Cell.na).map (step2Cell name))) := by
    unfold step2
    rw [hgA]
  rw [hs2] at h3
  have h3' : step3 resp (df.setCol "住所"
      ((df.rows.map fun r => r.getD jA Cell.na).map (step2Cell name))) =
      .ok df3 := h3
  have hcolsB : (df.setCol "住所"
      ((df.rows.map fun r => r.getD jA Cell.na).map (step2Cell name))).cols =
      df.cols := setCol_cols_of_idx _ hjA
  have hregB : "都道府県" ∉ (df.setCol "住所"
      ((df.rows.map fun r => r.getD jA Cell.na).map (step2Cell name))).cols := by
    rw [hcolsB]
    exact hreg
  have hreg3 : "都道府県" ∉ df3.cols := by
    have haddrB : "住所" ∈ (df.setCol "住所"
        ((df.rows.map fun r => r.getD jA Cell.na).map (step2Cell name))).cols := by
      rw [hcolsB]
      exact haddr
    obtain ⟨jB, hjB⟩ := colIdx_of_mem haddrB
    have hgB : (df.setCol "住所"
        ((df.rows.map fun r => r.getD jA Cell.na).map (step2Cell name))).getCol
          "住所" = some ((df.setCol "住所"
        ((df.rows.map fun r => r.getD jA Cell.na).map (step2Cell name))).rows.map
          fun r => r.getD jB Cell.na) := by
      unfold DF.getCol
      rw [hjB]
      rfl
    unfold step3 at h3'
    rw [hgB] at h3'
    simp only [pure_bind] at h3'
    split at h3'
    · cases h3'
    · cases hmE : mapE (coordCellsOf resp)
          ((df.setCol "住所"
            ((df.rows.map fun r => r.getD jA Cell.na).map (step2Cell name))).rows.map
              fun r => r.getD jB Cell.na) with
      | error e => rw [hmE] at h3'; cases h3'
      | ok pairs =>
        rw [hmE] at h3'
        simp only [ok_bind] at h3'
        injection h3' with h3'
        intro hmem
        rw [← h3'] at hmem
        rcases mem_setCol_cols hmem with hmem | hmem
        · rcases mem_setCol_cols hmem with hmem | hmem
          · exact hregB hmem
          · exact absurd hmem (by decide)
        · exact absurd hmem (by decide)
  have hres : step4 df3 = .error "KeyError: '都道府県'" := by
    unfold step4
    rw [getCol_none_of_not_mem hreg3]
    rfl
  have hresolve : resolveAddresses postal resp name df =
      .error "KeyError: '都道府県'" := by
    unfold resolveAddresses
    rw [if_neg hpost]
    simp only [pure_bind]
    rw [if_pos haddr]
    rw [hs2]
    simp only [ok_bind]
    rw [h3']
    simp only [ok_bind]
    exact hres
  have hproc : processDocument postal resp name (some doc) =
      Outcome.error "KeyError: '都道府県'" := by
    obtain ⟨pages⟩ := doc
    have hp2 : pages = some ft :: rest := hpages
    subst hp2
    unfold processDocument
    simp only [if_neg hlen]
    rw [hasm]
    simp only [ok_bind]
    rw [hresolve]
  refine ⟨hproc, ?_, ?_, rfl⟩
  · unfold mainRun
    rw [List.getElem?_map, hin, Option.map_some']
    rw [hproc]
  · exact List.length_map _ _

/-- Witness for C10: a concrete one-page document with columns 住所 and
名称 only; its iteration ends in `KeyError: '都道府県'` with no CSV
written. -/
theorem C10_address_only_document_keyerror_witness :
    processDocument (fun _ => none) (fun _ => ⟨200, true, some 0, some 0⟩)
      "東京都" (some ⟨[some [[some "t", some "t2"], [some "住所", some "名称"],
        [some "東京都港区A", some "B"]]]⟩) =
      Outcome.error "KeyError: '都道府県'" ∧
    (mainRun (fun _ => none) (fun _ => ⟨200, true, some 0, some 0⟩)
      [("東京都", some ⟨[some [[some "t", some "t2"], [some "住所", some "名称"],
        [some "東京都港区A", some "B"]]]⟩)])[0]? =
      some (Outcome.error "KeyError: '都道府県'") ∧
    (mainRun (fun _ => none) (fun _ => ⟨200, true, some 0, some 0⟩)
      [("東京都", some ⟨[some [[some "t", some "t2"], [some "住所", some "名称"],
        [some "東京都港区A", some "B"]]]⟩)]).length =
      [("東京都", some (⟨[some [[some "t", some "t2"], [some "住所", some "名称"],
        [some "東京都港区A", some "B"]]]⟩ : PdfDoc))].length ∧
    writesFile (Outcome.error "KeyError: '都道府県'") = false :=
  C10_address_only_document_keyerror (fun _ => none)
    (fun _ => ⟨200, true, some 0, some 0⟩)
    [("東京都", some ⟨[some [[some "t", some "t2"], [some "住所", some "名称"],
      [some "東京都港区A", some "B"]]]⟩)] 0 "東京都"
    ⟨[some [[some "t", some "t2"], [some "住所", some "名称"],
      [some "東京都港区A", some "B"]]]⟩
    [[some "t", some "t2"], [some "住所", some "名称"],
      [some "東京都港区A", some "B"]] []
    ⟨["住所", "名称"], [[Cell.str "東京都港区A", Cell.str "B"]]⟩
    ⟨["住所", "名称", "緯度", "経度"],
      [[Cell.str "東京都港区A", Cell.str "B", Cell.num 0, Cell.num 0]]⟩
    rfl rfl (by decide) rfl (by decide) (by decide) (by decide) (by decide)
